import Mathlib

/-!
Verification development for the SFTP transport adapter
(`conda/gateways/connection/adapters/sftp.py`).

Strings are embedded as `List Char`, mirroring Python text values.
Python library primitives used by the module (`str.split('\n')`,
`str.split()`, `int(str)`, truthiness of strings) are embedded as
executable functions below, faithful to CPython semantics on the
character set the module handles.
-/

set_option autoImplicit false

namespace Sftp

/-- Python whitespace characters recognised by `str.split()` with no
separator and by the stripping phase of `int(str)` (ASCII subset:
space, tab, newline, carriage return, vertical tab, form feed). -/
def pyIsSpace (c : Char) : Bool :=
  c == ' ' || c == '\t' || c == '\n' || c == '\r' || c == '\x0b' || c == '\x0c'

/-- Numeric value of a decimal digit character. -/
def digitVal (c : Char) : Nat := c.toNat - 48

/-- Tail phase of Python decimal-literal parsing: after an initial digit
has been consumed into `acc`, consume the remaining characters.  A single
underscore is permitted only between two digits (CPython's digit
grouping); anything else is a parse failure. -/
def parseDigitsAux (acc : Nat) : List Char → Option Nat
  | [] => some acc
  | c :: rest =>
    if c = '_' then
      match rest with
      | [] => none
      | c2 :: rest2 =>
        if c2.isDigit then parseDigitsAux (acc * 10 + digitVal c2) rest2 else none
    else if c.isDigit then parseDigitsAux (acc * 10 + digitVal c) rest
    else none

/-- Python unsigned decimal-literal parsing: a nonempty digit string,
optionally with single underscores between digits. -/
def parseDigits : List Char → Option Nat
  | [] => none
  | c :: rest => if c.isDigit then parseDigitsAux (digitVal c) rest else none

/-- Python `str.strip()` as applied by `int(str)`: remove leading and
trailing whitespace. -/
def pyStrip (l : List Char) : List Char :=
  ((l.dropWhile pyIsSpace).reverse.dropWhile pyIsSpace).reverse

/-- Python `int(s)` for a text argument: strip surrounding whitespace,
accept an optional sign, then a decimal literal; `none` models the
`ValueError` raised on any other shape. -/
def pyInt (l : List Char) : Option Int :=
  match pyStrip l with
  | [] => none
  | c :: rest =>
    if c = '+' then (parseDigits rest).map Int.ofNat
    else if c = '-' then (parseDigits rest).map (fun n => -(n : Int))
    else (parseDigits (c :: rest)).map Int.ofNat

/-- Python `text.split('\n')`: split on each newline, keeping empty
pieces; the result is always nonempty. -/
def pySplitLines : List Char → List (List Char)
  | [] => [[]]
  | c :: rest =>
    if c = '\n' then [] :: pySplitLines rest
    else
      match pySplitLines rest with
      | [] => [[c]]
      | l :: ls => (c :: l) :: ls

/-- First whitespace-delimited token of a line, modelling
`line.split()[0]`: `none` models the `IndexError` raised when the line
is empty or all whitespace. -/
def firstToken (l : List Char) : Option (List Char) :=
  let tok := (l.dropWhile pyIsSpace).takeWhile (fun c => !pyIsSpace c)
  if tok = [] then none else some tok

instance decEqExcept {ε α : Type} [DecidableEq ε] [DecidableEq α] :
    DecidableEq (Except ε α) := fun x y =>
  match x, y with
  | .ok a, .ok b =>
    if h : a = b then isTrue (by rw [h]) else isFalse (fun he => by cases he; exact h rfl)
  | .error a, .error b =>
    if h : a = b then isTrue (by rw [h]) else isFalse (fun he => by cases he; exact h rfl)
  | .ok _, .error _ => isFalse (fun he => by cases he)
  | .error _, .ok _ => isFalse (fun he => by cases he)

/-- Exceptions the module can raise or propagate. -/
inductive PyError where
  | indexError
  | valueError
  | keyError (key : List Char)
  | systemExit (msg : List Char)
  | connError
  deriving DecidableEq, Repr

/-- Record of one warning logged by the status-code extractor: the
original code text and the two extracted values, in the order the
`log.warning` call formats them. -/
abbrev WarnRec := List Char × Int × Int

/-- Reading `status_code_from_last_line` of
`get_status_code_from_code_response`: last non-empty line of the text,
its first token, parsed as an integer.  `indexError` models the empty
list / missing token failures, `valueError` the failed `int`. -/
def statusFromLastLine (code : List Char) : Except PyError Int :=
  match ((pySplitLines code).filter (fun l => !l.isEmpty)).getLast? with
  | none => .error .indexError
  | some lastLine =>
    match firstToken lastLine with
    | none => .error .indexError
    | some tok =>
      match pyInt tok with
      | none => .error .valueError
      | some n => .ok n

/-- Reading `status_code_from_first_digits` of
`get_status_code_from_code_response`: `int(code[:3])`. -/
def statusFromFirstDigits (code : List Char) : Except PyError Int :=
  match pyInt (code.take 3) with
  | none => .error .valueError
  | some n => .ok n

/-- Embedding of `get_status_code_from_code_response(code)`: compute the
last-line reading, then the three-character reading; if they disagree,
log one warning carrying the original text and both values; return the
last-line reading.  Errors of either reading propagate. -/
def get_status_code_from_code_response (code : List Char) :
    Except PyError (Int × List WarnRec) :=
  match statusFromLastLine code with
  | .error e => .error e
  | .ok a =>
    match statusFromFirstDigits code with
    | .error e => .error e
    | .ok b => .ok (a, if a ≠ b then [(code, a, b)] else [])

example : pyInt (String.toList "226") = some 226 := by decide
example : pyInt (String.toList " +2_6 ") = some 26 := by decide
example : pyInt (String.toList "-22") = some (-22) := by decide
example : pyInt (String.toList "1_") = none := by decide
example : pyInt (String.toList "2 6") = none := by decide
example : get_status_code_from_code_response (String.toList "200 Welcome") = .ok (200, []) := by decide
example :
    get_status_code_from_code_response
      (String.toList "226-File successfully transferred\n226 0.000 seconds") = .ok (226, []) := by
  decide
example :
    get_status_code_from_code_response
      (String.toList "200-File successfully transferred\n226 0.000 seconds") =
      .ok (226, [(String.toList "200-File successfully transferred\n226 0.000 seconds", 226, 200)]) := by
  decide
example : get_status_code_from_code_response (String.toList "20") = .ok (20, []) := by decide
example : get_status_code_from_code_response (String.toList "ab") = .error .valueError := by decide
example : get_status_code_from_code_response (String.toList "") = .error .indexError := by decide
example : get_status_code_from_code_response (String.toList "2 6\n226 x") = .error .valueError := by
  decide

/-! The adapter.  `urlparse` and the request/response framework are
external collaborators: a request carries its already-parsed URL, and
hook dispatch is a function supplied by the environment.  The pysftp
session library is modelled by a `World`: connection establishment may
fail, and `getfo` either yields the file bytes or raises an
errno-bearing OS error. -/

/-- Result of `urlparse(request.url)`: the URL components the adapter
reads. -/
structure ParsedUrl where
  hostname : List Char
  port : Option Nat
  username : Option (List Char)
  password : Option (List Char)
  path : List Char
  deriving DecidableEq, Repr

/-- PreparedRequest as the adapter consumes it: its parsed URL and its
method verb.  Hooks are modelled by `World.hook`. -/
structure Request where
  url : ParsedUrl
  method : List Char
  deriving DecidableEq, Repr

/-- BytesIO buffer: contents plus current stream position. -/
structure ByteStream where
  data : List Nat
  pos : Nat
  deriving DecidableEq, Repr

/-- Response record as `build_response` fills it in. -/
structure Response where
  encoding : Option (List Char)
  raw : ByteStream
  url : ParsedUrl
  request : Request
  status_code : Int
  deriving DecidableEq, Repr

/-- External collaborators: `pysftp.Connection` (may fail to establish),
`conn.getfo` (bytes fetched, or an errno-bearing OSError/IOError), and
`dispatch_hook('response', request.hooks, response)`. -/
structure World where
  connect : List Char → Nat → Option (List Char) → Option (List Char) → Except Unit Unit
  getfo : List Char → Except Int (List Nat)
  hook : Response → Response

/-- Observable side effects of one `send` call: the arguments of the
`pysftp.Connection` call if one was made, whether the connection object
was stored in `self.conn`, how many times `conn.close()` ran, the
status-code warnings logged, and the `log.warn` records (path, errno)
of failed fetches. -/
structure Trace where
  connectArgs : Option (List Char × Nat × Option (List Char) × Option (List Char))
  connStored : Bool
  closes : Nat
  warnings : List WarnRec
  errLogs : List (List Char × Int)
  deriving DecidableEq, Repr

/-- Trace of a call that performed no external effect yet. -/
def Trace.empty : Trace := ⟨none, false, 0, [], []⟩

/-- Lines 47-49 of `send`: `path = parsed.path; if path[0] == '/': path
= path[1:]`.  Indexing an empty path raises `IndexError`. -/
def stripPath : List Char → Except PyError (List Char)
  | [] => .error .indexError
  | c :: rest => .ok (if c = '/' then rest else c :: rest)

/-- Line 51 of `send`: `port = parsed.port or 22`.  Python `or` also
replaces an explicit port 0, which is falsy. -/
def effectivePort : Option Nat → Nat
  | none => 22
  | some 0 => 22
  | some n => n

/-- Handlers the verb table can point at. -/
inductive Handler where
  | list
  | retr
  | stor
  | nlst
  deriving DecidableEq, Repr

/-- The `func_table` dictionary built in `SFTPAdapter.__init__`. -/
def func_table : List (List Char × Handler) :=
  [(String.toList "LIST", .list),
   (String.toList "RETR", .retr),
   (String.toList "STOR", .stor),
   (String.toList "NLST", .nlst),
   (String.toList "GET", .retr)]

/-- Python dict lookup `self.func_table[request.method]`; `none` models
the `KeyError` on an unsupported method. -/
def tableLookup (m : List Char) : List (List Char × Handler) → Option Handler
  | [] => none
  | (k, h) :: rest => if m = k then some h else tableLookup m rest

/-- Body of `build_response` up to the `dispatch_hook` call: derive the
status code (warnings recorded, parse errors propagated), fill in the
fields, and seek the raw stream back to position 0.  The returned
`Response` is the exact value handed to hook dispatch. -/
def build_response_core (req : Request) (data : ByteStream) (code : List Char)
    (encoding : Option (List Char)) : Except PyError (Response × List WarnRec) :=
  match get_status_code_from_code_response code with
  | .error e => .error e
  | .ok (sc, warns) =>
    .ok ({ encoding := encoding
           raw := { data := data.data, pos := 0 }
           url := req.url
           request := req
           status_code := sc }, warns)

/-- Embedding of `build_response`: the core record above, passed through
`dispatch_hook`. -/
def build_response (w : World) (req : Request) (data : ByteStream) (code : List Char)
    (encoding : Option (List Char)) : Except PyError (Response × List WarnRec) :=
  match build_response_core req data code encoding with
  | .error e => .error e
  | .ok (r, warns) => .ok (w.hook r, warns)

/-- Embedding of `build_binary_response`: `build_response` with a `None`
encoding. -/
def build_binary_response (w : World) (req : Request) (data : ByteStream)
    (code : List Char) : Except PyError (Response × List WarnRec) :=
  build_response w req data code none

/-- Embedding of `SFTPAdapter.retr`: fetch the remote file into a fresh
buffer.  On success build the binary response with code text "226" and
close the connection; on an OSError/IOError log the path and errno,
yield `None`, and close the connection.  An error escaping
`build_binary_response` would propagate without a close. -/
def retr (w : World) (path : List Char) (req : Request) :
    Except PyError (Option Response) × Trace :=
  match w.getfo path with
  | .ok bytes =>
    match build_binary_response w req { data := bytes, pos := bytes.length }
        (String.toList "226") with
    | .error e => (.error e, Trace.empty)
    | .ok (r, warns) =>
      (.ok (some r), { Trace.empty with closes := 1, warnings := warns })
  | .error errno =>
    (.ok none, { Trace.empty with closes := 1, errLogs := [(path, errno)] })

/-- Dispatch through a `func_table` entry.  `list`, `stor` and `nlst`
raise `SystemExit("<VERB> not implemented yet")`. -/
def runHandler (w : World) (path : List Char) (req : Request) :
    Handler → Except PyError (Option Response) × Trace
  | .list => (.error (.systemExit (String.toList "LIST not implemented yet")), Trace.empty)
  | .retr => retr w path req
  | .stor => (.error (.systemExit (String.toList "STOR not implemented yet")), Trace.empty)
  | .nlst => (.error (.systemExit (String.toList "NLST not implemented yet")), Trace.empty)

/-- Embedding of `SFTPAdapter.send`: parse the URL (carried pre-parsed
by the request), strip one leading slash from the path, open the
connection (storing it in `self.conn` on success), look the handler up
by method name, and run it.  Each failure propagates as the
corresponding exception. -/
def send (w : World) (req : Request) : Except PyError (Option Response) × Trace :=
  match stripPath req.url.path with
  | .error e => (.error e, Trace.empty)
  | .ok path =>
    let port := effectivePort req.url.port
    let args := (req.url.hostname, port, req.url.username, req.url.password)
    match w.connect req.url.hostname port req.url.username req.url.password with
    | .error _ => (.error .connError, { Trace.empty with connectArgs := some args })
    | .ok _ =>
      match tableLookup req.method func_table with
      | none =>
        (.error (.keyError req.method),
         { Trace.empty with connectArgs := some args, connStored := true })
      | some h =>
        let out := runHandler w path req h
        (out.1, { out.2 with connectArgs := some args, connStored := true })

/-! Helper lemmas about the embedded Python primitives. -/

/-- Decimal value of a digit string (most significant digit first). -/
def digitsNat (l : List Char) : Nat :=
  l.foldl (fun a c => a * 10 + digitVal c) 0

theorem digit_ne_underscore {c : Char} (h : c.isDigit = true) : c ≠ '_' :=
  fun e => by rw [e] at h; exact absurd h (by decide)

theorem digit_ne_plus {c : Char} (h : c.isDigit = true) : c ≠ '+' :=
  fun e => by rw [e] at h; exact absurd h (by decide)

theorem digit_ne_minus {c : Char} (h : c.isDigit = true) : c ≠ '-' :=
  fun e => by rw [e] at h; exact absurd h (by decide)

theorem digit_ne_newline {c : Char} (h : c.isDigit = true) : c ≠ '\n' :=
  fun e => by rw [e] at h; exact absurd h (by decide)

theorem digit_not_space {c : Char} (h : c.isDigit = true) : pyIsSpace c = false := by
  have h1 : c ≠ ' ' := fun e => by rw [e] at h; exact absurd h (by decide)
  have h2 : c ≠ '\t' := fun e => by rw [e] at h; exact absurd h (by decide)
  have h3 : c ≠ '\n' := digit_ne_newline h
  have h4 : c ≠ '\r' := fun e => by rw [e] at h; exact absurd h (by decide)
  have h5 : c ≠ '\x0b' := fun e => by rw [e] at h; exact absurd h (by decide)
  have h6 : c ≠ '\x0c' := fun e => by rw [e] at h; exact absurd h (by decide)
  simp [pyIsSpace, h1, h2, h3, h4, h5, h6]

theorem parseDigitsAux_digits (acc : Nat) (l : List Char)
    (h : ∀ c ∈ l, c.isDigit = true) :
    parseDigitsAux acc l = some (l.foldl (fun a c => a * 10 + digitVal c) acc) := by
  induction l generalizing acc with
  | nil => rfl
  | cons c rest ih =>
    have hc : c.isDigit = true := h c (List.mem_cons_self c rest)
    have hne : c ≠ '_' := digit_ne_underscore hc
    rw [parseDigitsAux.eq_def]
    simp only [if_neg hne, if_pos hc,
      ih _ (fun x hx => h x (List.mem_cons_of_mem c hx))]
    rfl

theorem parseDigits_digits {l : List Char} (h : ∀ c ∈ l, c.isDigit = true)
    (hne : l ≠ []) : parseDigits l = some (digitsNat l) := by
  cases l with
  | nil => exact absurd rfl hne
  | cons c rest =>
    have hc : c.isDigit = true := h c (List.mem_cons_self c rest)
    rw [parseDigits, if_pos hc,
      parseDigitsAux_digits _ _ (fun x hx => h x (List.mem_cons_of_mem c hx))]
    simp [digitsNat]

theorem dropWhile_eq_self {p : Char → Bool} {l : List Char}
    (h : ∀ c ∈ l, p c = false) : l.dropWhile p = l := by
  cases l with
  | nil => rfl
  | cons c rest => simp [List.dropWhile_cons, h c (List.mem_cons_self c rest)]

theorem pyStrip_eq_self {l : List Char} (h : ∀ c ∈ l, pyIsSpace c = false) :
    pyStrip l = l := by
  unfold pyStrip
  rw [dropWhile_eq_self h,
    dropWhile_eq_self (fun c hc => h c (List.mem_reverse.mp hc)),
    List.reverse_reverse]

theorem pyInt_digits {l : List Char} (h : ∀ c ∈ l, c.isDigit = true)
    (hne : l ≠ []) : pyInt l = some (digitsNat l : Int) := by
  cases l with
  | nil => exact absurd rfl hne
  | cons c rest =>
    have hc : c.isDigit = true := h c (List.mem_cons_self c rest)
    have hstrip : pyStrip (c :: rest) = c :: rest :=
      pyStrip_eq_self (fun x hx => digit_not_space (h x hx))
    rw [pyInt, hstrip]
    simp only [if_neg (digit_ne_plus hc), if_neg (digit_ne_minus hc),
      parseDigits_digits h hne, Option.map_some]
    rfl

theorem takeWhile_append_stop {p : Char → Bool} {d : List Char} {x : Char}
    {t : List Char} (hd : ∀ c ∈ d, p c = true) (hx : p x = false) :
    (d ++ x :: t).takeWhile p = d := by
  induction d with
  | nil => simp [List.takeWhile_cons, hx]
  | cons c rest ih =>
    simp [List.takeWhile_cons, hd c (List.mem_cons_self c rest),
      ih (fun y hy => hd y (List.mem_cons_of_mem c hy))]

theorem firstToken_digits_space {d : List Char} {t : List Char}
    (hd : ∀ c ∈ d, c.isDigit = true) (hne : d ≠ []) :
    firstToken (d ++ ' ' :: t) = some d := by
  cases d with
  | nil => exact absurd rfl hne
  | cons c rest =>
    have hc : pyIsSpace c = false :=
      digit_not_space (hd c (List.mem_cons_self c rest))
    have hdrop : ((c :: rest) ++ ' ' :: t).dropWhile pyIsSpace =
        (c :: rest) ++ ' ' :: t := by
      simp [List.dropWhile_cons, hc]
    have htake : ((c :: rest) ++ ' ' :: t).takeWhile (fun x => !pyIsSpace x) =
        c :: rest :=
      takeWhile_append_stop (fun y hy => by simp [digit_not_space (hd y hy)])
        (by simp [pyIsSpace])
    rw [firstToken]
    simp only [hdrop, htake]
    rfl

theorem pySplitLines_no_nl {l : List Char} (h : '\n' ∉ l) :
    pySplitLines l = [l] := by
  induction l with
  | nil => rfl
  | cons c rest ih =>
    rw [List.mem_cons] at h
    push_neg at h
    rw [pySplitLines, if_neg (fun e => h.1 e.symm), ih h.2]

theorem pySplitLines_append {l1 l2 : List Char} (h : '\n' ∉ l1) :
    pySplitLines (l1 ++ '\n' :: l2) = l1 :: pySplitLines l2 := by
  induction l1 with
  | nil =>
    show pySplitLines ('\n' :: l2) = [] :: pySplitLines l2
    rw [pySplitLines, if_pos rfl]
  | cons c rest ih =>
    rw [List.mem_cons] at h
    push_neg at h
    show pySplitLines (c :: (rest ++ '\n' :: l2)) = (c :: rest) :: pySplitLines l2
    rw [pySplitLines, if_neg (fun e => h.1 e.symm), ih h.2]

/-- Join lines with newlines, inverse of `pySplitLines` on
newline-free lines. -/
def joinNL : List (List Char) → List Char
  | [] => []
  | [l] => l
  | l :: l2 :: ls => l ++ '\n' :: joinNL (l2 :: ls)

theorem pySplitLines_joinNL {ls : List (List Char)} (hne : ls ≠ [])
    (h : ∀ l ∈ ls, '\n' ∉ l) : pySplitLines (joinNL ls) = ls := by
  induction ls with
  | nil => exact absurd rfl hne
  | cons l rest ih =>
    cases rest with
    | nil =>
      rw [joinNL, pySplitLines_no_nl (h l (List.mem_cons_self l []))]
    | cons l2 ls2 =>
      rw [joinNL, pySplitLines_append (h l (List.mem_cons_self l _)),
        ih (by simp) (fun x hx => h x (List.mem_cons_of_mem l hx))]

theorem getLast_filter_concat {p : List Char → Bool} {ls : List (List Char)}
    {a : List Char} (ha : p a = true) :
    ((ls ++ [a]).filter p).getLast? = some a := by
  rw [List.filter_append]
  have : List.filter p [a] = [a] := by simp [List.filter, ha]
  rw [this]
  exact List.getLast?_concat _

theorem statusFromLastLine_of_getLast {code : List Char} {d1 d2 d3 : Char}
    {t : List Char}
    (h : ((pySplitLines code).filter (fun l => !l.isEmpty)).getLast? =
      some (d1 :: d2 :: d3 :: ' ' :: t))
    (h1 : d1.isDigit = true) (h2 : d2.isDigit = true) (h3 : d3.isDigit = true) :
    statusFromLastLine code = .ok (digitsNat [d1, d2, d3] : Int) := by
  have hd : ∀ c ∈ [d1, d2, d3], c.isDigit = true := by
    intro c hc
    simp only [List.mem_cons, List.not_mem_nil, or_false] at hc
    rcases hc with rfl | rfl | rfl <;> assumption
  have htok : firstToken (d1 :: d2 :: d3 :: ' ' :: t) = some [d1, d2, d3] :=
    firstToken_digits_space hd (by simp)
  rw [statusFromLastLine, h]
  simp only [htok, pyInt_digits hd (by simp)]

theorem statusFromFirstDigits_cons {d1 d2 d3 : Char} {t : List Char}
    (h1 : d1.isDigit = true) (h2 : d2.isDigit = true) (h3 : d3.isDigit = true) :
    statusFromFirstDigits (d1 :: d2 :: d3 :: t) = .ok (digitsNat [d1, d2, d3] : Int) := by
  have hd : ∀ c ∈ [d1, d2, d3], c.isDigit = true := by
    intro c hc
    simp only [List.mem_cons, List.not_mem_nil, or_false] at hc
    rcases hc with rfl | rfl | rfl <;> assumption
  have htake : (d1 :: d2 :: d3 :: t).take 3 = [d1, d2, d3] := by
    simp [List.take_succ_cons]
  rw [statusFromFirstDigits, htake]
  simp only [pyInt_digits hd (by simp)]

/-- True when an `Except` result is an error. -/
def isErr {ε α : Type} : Except ε α → Bool
  | .error _ => true
  | .ok _ => false

theorem get_status_ok_eq {code : List Char} {v : Int}
    (hl : statusFromLastLine code = .ok v)
    (hp : statusFromFirstDigits code = .ok v) :
    get_status_code_from_code_response code = .ok (v, []) := by
  rw [get_status_code_from_code_response, hl, hp]
  simp

theorem tableLookup_eq_none {m : List Char} {t : List (List Char × Handler)}
    (h : m ∉ t.map Prod.fst) : tableLookup m t = none := by
  induction t with
  | nil => rfl
  | cons kv rest ih =>
    simp only [List.map_cons, List.mem_cons] at h
    push_neg at h
    rw [tableLookup, if_neg h.1, ih h.2]

theorem send_reduces {w : World} {req : Request} {p : List Char}
    (hs : stripPath req.url.path = .ok p)
    (hc : w.connect req.url.hostname (effectivePort req.url.port)
      req.url.username req.url.password = .ok ()) :
    send w req =
      match tableLookup req.method func_table with
      | none =>
        (.error (.keyError req.method),
         { Trace.empty with
             connectArgs := some (req.url.hostname, effectivePort req.url.port,
               req.url.username, req.url.password),
             connStored := true })
      | some h =>
        ((runHandler w p req h).1,
         { (runHandler w p req h).2 with
             connectArgs := some (req.url.hostname, effectivePort req.url.port,
               req.url.username, req.url.password),
             connStored := true }) := by
  simp only [send, hs, hc]

theorem retr_success {w : World} {path : List Char} {req : Request}
    {bytes : List Nat} (hf : w.getfo path = .ok bytes) :
    retr w path req =
      (.ok (some (w.hook
        { encoding := none, raw := { data := bytes, pos := 0 },
          url := req.url, request := req, status_code := 226 })),
       { Trace.empty with closes := 1 }) := by
  simp only [retr, hf, build_binary_response, build_response, build_response_core,
    show get_status_code_from_code_response (String.toList "226") = .ok (226, []) from rfl]
  rfl

theorem retr_failure {w : World} {path : List Char} {req : Request} {e : Int}
    (hf : w.getfo path = .error e) :
    retr w path req = (.ok none, { Trace.empty with closes := 1, errLogs := [(path, e)] }) := by
  simp only [retr, hf]

end Sftp

open Sftp

/-- Claim C1: whenever the integer parsed from the first token of the
last non-empty line differs from the integer parsed from the first
three characters of the text, `get_status_code_from_code_response`
returns the last-line value as authoritative, logs exactly one warning
carrying the original text and both values, and raises no error. -/
theorem claim_C1_mismatch_last_line_wins (code : List Char) (a b : Int)
    (hlast : statusFromLastLine code = .ok a)
    (hfirst : statusFromFirstDigits code = .ok b)
    (hne : a ≠ b) :
    get_status_code_from_code_response code = .ok (a, [(code, a, b)]) := by
  rw [get_status_code_from_code_response, hlast, hfirst]
  simp [hne]

/-- Witness for C1 at the conflicting example from the module
docstring. -/
theorem claim_C1_mismatch_last_line_wins_witness :
    get_status_code_from_code_response
      (String.toList "200-File successfully transferred\n226 0.000 seconds") =
      .ok (226,
        [(String.toList "200-File successfully transferred\n226 0.000 seconds", 226, 200)]) :=
  claim_C1_mismatch_last_line_wins _ 226 200 (by decide) (by decide) (by decide)

/-- Claim C2: a single-line reply of the form "<3-digit-code> <text>"
yields the integer value of the code, and a multi-line RFC 959 reply
whose first line is "<code>-<text>" and whose last line is
"<code> <text>" with the same code yields that shared value; neither
raises nor warns.  The particular inputs "200 Welcome" and
"226-File successfully transferred\n226 0.000 seconds" are the
witness. -/
theorem claim_C2_wellformed_replies (d1 d2 d3 : Char)
    (h1 : d1.isDigit = true) (h2 : d2.isDigit = true) (h3 : d3.isDigit = true) :
    (∀ t : List Char, '\n' ∉ t →
      get_status_code_from_code_response (d1 :: d2 :: d3 :: ' ' :: t) =
        .ok ((digitsNat [d1, d2, d3] : Int), []))
    ∧ (∀ t1 t2 : List Char, ∀ mid : List (List Char),
        '\n' ∉ t1 → '\n' ∉ t2 → (∀ l ∈ mid, '\n' ∉ l) →
        get_status_code_from_code_response
          (d1 :: d2 :: d3 :: '-' ::
            (t1 ++ '\n' :: joinNL (mid ++ [d1 :: d2 :: d3 :: ' ' :: t2]))) =
          .ok ((digitsNat [d1, d2, d3] : Int), [])) := by
  constructor
  · intro t ht
    have hnl : '\n' ∉ (d1 :: d2 :: d3 :: ' ' :: t) := by
      simp only [List.mem_cons]
      push_neg
      exact ⟨fun e => digit_ne_newline h1 e.symm, fun e => digit_ne_newline h2 e.symm,
        fun e => digit_ne_newline h3 e.symm, by decide, ht⟩
    have hlast : ((pySplitLines (d1 :: d2 :: d3 :: ' ' :: t)).filter
        (fun l => !l.isEmpty)).getLast? = some (d1 :: d2 :: d3 :: ' ' :: t) := by
      rw [pySplitLines_no_nl hnl]
      simp [List.filter]
    exact get_status_ok_eq (statusFromLastLine_of_getLast hlast h1 h2 h3)
      (statusFromFirstDigits_cons h1 h2 h3)
  · intro t1 t2 mid ht1 ht2 hmid
    have hfirst : '\n' ∉ (d1 :: d2 :: d3 :: '-' :: t1) := by
      simp only [List.mem_cons]
      push_neg
      exact ⟨fun e => digit_ne_newline h1 e.symm, fun e => digit_ne_newline h2 e.symm,
        fun e => digit_ne_newline h3 e.symm, by decide, ht1⟩
    have hlastline : '\n' ∉ (d1 :: d2 :: d3 :: ' ' :: t2) := by
      simp only [List.mem_cons]
      push_neg
      exact ⟨fun e => digit_ne_newline h1 e.symm, fun e => digit_ne_newline h2 e.symm,
        fun e => digit_ne_newline h3 e.symm, by decide, ht2⟩
    have hshape : d1 :: d2 :: d3 :: '-' ::
        (t1 ++ '\n' :: joinNL (mid ++ [d1 :: d2 :: d3 :: ' ' :: t2])) =
        (d1 :: d2 :: d3 :: '-' :: t1) ++
          '\n' :: joinNL (mid ++ [d1 :: d2 :: d3 :: ' ' :: t2]) := by
      simp
    have hjoin : pySplitLines (joinNL (mid ++ [d1 :: d2 :: d3 :: ' ' :: t2])) =
        mid ++ [d1 :: d2 :: d3 :: ' ' :: t2] := by
      refine pySplitLines_joinNL (by simp) ?_
      intro l hl
      rcases List.mem_append.mp hl with h | h
      · exact hmid l h
      · simp only [List.mem_singleton] at h
        rw [h]
        exact hlastline
    have hsplit : pySplitLines (d1 :: d2 :: d3 :: '-' ::
        (t1 ++ '\n' :: joinNL (mid ++ [d1 :: d2 :: d3 :: ' ' :: t2]))) =
        (d1 :: d2 :: d3 :: '-' :: t1) :: (mid ++ [d1 :: d2 :: d3 :: ' ' :: t2]) := by
      rw [hshape, pySplitLines_append hfirst, hjoin]
    have hlast : ((pySplitLines (d1 :: d2 :: d3 :: '-' ::
        (t1 ++ '\n' :: joinNL (mid ++ [d1 :: d2 :: d3 :: ' ' :: t2])))).filter
        (fun l => !l.isEmpty)).getLast? = some (d1 :: d2 :: d3 :: ' ' :: t2) := by
      rw [hsplit]
      have : (d1 :: d2 :: d3 :: '-' :: t1) :: (mid ++ [d1 :: d2 :: d3 :: ' ' :: t2]) =
          ((d1 :: d2 :: d3 :: '-' :: t1) :: mid) ++ [d1 :: d2 :: d3 :: ' ' :: t2] := by
        simp
      rw [this]
      exact getLast_filter_concat (by simp)
    exact get_status_ok_eq (statusFromLastLine_of_getLast hlast h1 h2 h3)
      (statusFromFirstDigits_cons h1 h2 h3)

/-- Witness for C2 at the two particular inputs the claim names:
"200 Welcome" and "226-File successfully transferred\n226 0.000
seconds". -/
theorem claim_C2_wellformed_replies_witness :
    get_status_code_from_code_response
      ('2' :: '0' :: '0' :: ' ' :: String.toList "Welcome") = .ok (200, [])
    ∧ get_status_code_from_code_response
        ('2' :: '2' :: '6' :: '-' ::
          (String.toList "File successfully transferred" ++
            '\n' :: joinNL ([] ++ ['2' :: '2' :: '6' :: ' ' :: String.toList "0.000 seconds"]))) =
        .ok (226, []) := by
  constructor
  · have h := (claim_C2_wellformed_replies '2' '0' '0' (by decide) (by decide)
      (by decide)).1 (String.toList "Welcome") (by decide)
    rw [show ((digitsNat ['2', '0', '0'] : Int)) = 200 by decide] at h
    exact h
  · have h := (claim_C2_wellformed_replies '2' '2' '6' (by decide) (by decide)
      (by decide)).2 (String.toList "File successfully transferred")
      (String.toList "0.000 seconds") [] (by decide) (by decide) (by simp)
    rw [show ((digitsNat ['2', '2', '6'] : Int)) = 226 by decide] at h
    exact h

/-- Counterexample to C3 as stated: the two-character input "20" is
shorter than three characters, yet the extractor succeeds with 20
(Python `int` happily parses the two-character slice `code[:3]`), so
"fails ... exactly when ... or when the input text is shorter than
three characters" is false. -/
theorem claim_C3_counterexample :
    ¬ (isErr (get_status_code_from_code_response (String.toList "20")) = true ↔
        (isErr (statusFromLastLine (String.toList "20")) = true ∨
          (String.toList "20").length < 3)) := by
  decide

/-- Claim C3 (amended): the extractor fails exactly when the last-line
reading fails (no non-empty line, no leading token, or a token `int`
rejects) or the three-character-prefix reading fails; either error is
not caught and propagates through `build_response` to the caller. -/
theorem claim_C3_amended_parse_errors (code : List Char) :
    (isErr (get_status_code_from_code_response code) =
      (isErr (statusFromLastLine code) || isErr (statusFromFirstDigits code)))
    ∧ (∀ e : PyError, get_status_code_from_code_response code = .error e →
        ∀ (w : World) (req : Request) (data : ByteStream) (enc : Option (List Char)),
          build_response w req data code enc = .error e) := by
  constructor
  · cases hl : statusFromLastLine code with
    | error e => rw [get_status_code_from_code_response, hl]; simp [isErr]
    | ok a =>
      cases hp : statusFromFirstDigits code with
      | error e => rw [get_status_code_from_code_response, hl, hp]; simp [isErr]
      | ok b =>
        rw [get_status_code_from_code_response, hl, hp]
        by_cases hab : a ≠ b <;> simp [hab, isErr]
  · intro e he w req data enc
    rw [build_response, build_response_core, he]

/-- Witness for C3 (amended): the error on "ab" propagates through
`build_response` unchanged. -/
theorem claim_C3_amended_parse_errors_witness :
    build_response ⟨fun _ _ _ _ => .ok (), fun _ => .ok [], id⟩
      ⟨⟨[], none, none, none, []⟩, []⟩ ⟨[], 0⟩ (String.toList "ab") none =
      .error .valueError :=
  (claim_C3_amended_parse_errors (String.toList "ab")).2 .valueError (by decide)
    _ _ _ _

/-- Claim C4: a request whose method is STOR, LIST or NLST raises
`SystemExit("<VERB> not implemented yet")` once dispatch is reached —
the embedding of the process-terminating signal, distinct from every
ordinary error value — and such a call never returns a response object
under any world. -/
theorem claim_C4_unimplemented_verbs (w : World) (req : Request) (p : List Char)
    (hm : req.method = String.toList "STOR" ∨ req.method = String.toList "LIST" ∨
      req.method = String.toList "NLST") :
    (stripPath req.url.path = .ok p →
      w.connect req.url.hostname (effectivePort req.url.port) req.url.username
        req.url.password = .ok () →
      (send w req).1 =
        .error (.systemExit (req.method ++ String.toList " not implemented yet")))
    ∧ ∀ r : Response, (send w req).1 ≠ .ok (some r) := by
  have hstor : tableLookup (String.toList "STOR") func_table = some Handler.stor := rfl
  have hlist : tableLookup (String.toList "LIST") func_table = some Handler.list := rfl
  have hnlst : tableLookup (String.toList "NLST") func_table = some Handler.nlst := rfl
  constructor
  · intro hs hc
    rw [send_reduces hs hc]
    rcases hm with hm | hm | hm <;> rw [hm] <;>
      simp only [hstor, hlist, hnlst, runHandler] <;> rfl
  · intro r
    cases hs : stripPath req.url.path with
    | error e => simp [send, hs]
    | ok p2 =>
      cases hc : w.connect req.url.hostname (effectivePort req.url.port)
          req.url.username req.url.password with
      | error u => simp [send, hs, hc]
      | ok u =>
        cases u
        rw [send_reduces hs hc]
        rcases hm with hm | hm | hm <;> rw [hm] <;>
          exact fun h => Except.noConfusion h

/-- Witness for C4 at a concrete STOR request. -/
theorem claim_C4_unimplemented_verbs_witness :
    (send ⟨fun _ _ _ _ => .ok (), fun _ => .ok [], id⟩
      ⟨⟨String.toList "host", none, none, none, String.toList "/pkg"⟩,
        String.toList "STOR"⟩).1 =
      .error (.systemExit (String.toList "STOR" ++ String.toList " not implemented yet")) :=
  (claim_C4_unimplemented_verbs _ _ (String.toList "pkg") (Or.inl rfl)).1 rfl rfl

/-- Claim C5: for a RETR or GET request whose remote fetch raises an
errno-bearing OS error, the retr handler yields `None` rather than an
exception and logs the path and errno; the connection is closed exactly
once, on the failure path and on the success path alike. -/
theorem claim_C5_retr_soft_failure (w : World) (req : Request) (p : List Char)
    (hm : req.method = String.toList "RETR" ∨ req.method = String.toList "GET")
    (hs : stripPath req.url.path = .ok p)
    (hc : w.connect req.url.hostname (effectivePort req.url.port) req.url.username
      req.url.password = .ok ()) :
    (∀ e : Int, w.getfo p = .error e →
      (send w req).1 = .ok none ∧ (send w req).2.closes = 1 ∧
        (send w req).2.errLogs = [(p, e)])
    ∧ (∀ bytes : List Nat, w.getfo p = .ok bytes → (send w req).2.closes = 1) := by
  have hretr : tableLookup (String.toList "RETR") func_table = some Handler.retr := rfl
  have hget : tableLookup (String.toList "GET") func_table = some Handler.retr := rfl
  have hsend : send w req =
      ((retr w p req).1,
       { (retr w p req).2 with
           connectArgs := some (req.url.hostname, effectivePort req.url.port,
             req.url.username, req.url.password),
           connStored := true }) := by
    rw [send_reduces hs hc]
    rcases hm with hm | hm <;> rw [hm] <;> simp only [hretr, hget, runHandler]
  constructor
  · intro e he
    rw [hsend, retr_failure he]
    exact ⟨rfl, rfl, rfl⟩
  · intro bytes hb
    rw [hsend, retr_success hb]

/-- Witness for C5 at a concrete RETR request whose fetch fails with
errno 13. -/
theorem claim_C5_retr_soft_failure_witness :
    (send ⟨fun _ _ _ _ => .ok (), fun _ => .error 13, id⟩
        ⟨⟨String.toList "host", none, none, none, String.toList "/pkg"⟩,
          String.toList "RETR"⟩).1 = .ok none
    ∧ (send ⟨fun _ _ _ _ => .ok (), fun _ => .error 13, id⟩
        ⟨⟨String.toList "host", none, none, none, String.toList "/pkg"⟩,
          String.toList "RETR"⟩).2.closes = 1
    ∧ (send ⟨fun _ _ _ _ => .ok (), fun _ => .error 13, id⟩
        ⟨⟨String.toList "host", none, none, none, String.toList "/pkg"⟩,
          String.toList "RETR"⟩).2.errLogs = [(String.toList "pkg", 13)] :=
  (claim_C5_retr_soft_failure ⟨fun _ _ _ _ => .ok (), fun _ => .error 13, id⟩
    ⟨⟨String.toList "host", none, none, none, String.toList "/pkg"⟩,
      String.toList "RETR"⟩ (String.toList "pkg") (Or.inl rfl) rfl rfl).1 13 rfl

/-- Claim C6: a successful RETR/GET retrieval builds a response whose
status code is 226 and whose encoding is `None`, and the value handed
to hook dispatch has its raw payload stream at position zero; in
general, every response `build_response_core` constructs has its raw
stream repositioned to offset zero before hook dispatch. -/
theorem claim_C6_success_response_invariants (w : World) (path : List Char)
    (req : Request) (bytes : List Nat) (hf : w.getfo path = .ok bytes) :
    (∃ r : Response,
      build_response_core req ⟨bytes, bytes.length⟩ (String.toList "226") none =
        .ok (r, [])
      ∧ r.status_code = 226 ∧ r.encoding = none ∧ r.raw.pos = 0
      ∧ (retr w path req).1 = .ok (some (w.hook r)))
    ∧ ∀ (req2 : Request) (data : ByteStream) (code : List Char)
        (enc : Option (List Char)) (r : Response) (ws : List WarnRec),
        build_response_core req2 data code enc = .ok (r, ws) → r.raw.pos = 0 := by
  constructor
  · refine ⟨{ encoding := none, raw := { data := bytes, pos := 0 }, url := req.url,
              request := req, status_code := 226 }, rfl, rfl, rfl, rfl, ?_⟩
    rw [retr_success hf]
  · intro req2 data code enc r ws he
    rw [build_response_core] at he
    cases hg : get_status_code_from_code_response code with
    | error e => rw [hg] at he; cases he
    | ok v =>
      obtain ⟨sc, warns⟩ := v
      rw [hg] at he
      simp only [Except.ok.injEq, Prod.mk.injEq] at he
      rw [← he.1]

/-- Witness for C6 at a concrete successful GET retrieval. -/
theorem claim_C6_success_response_invariants_witness :
    ∃ r : Response,
      build_response_core
        ⟨⟨String.toList "host", none, none, none, String.toList "/pkg"⟩,
          String.toList "GET"⟩ ⟨[1, 2], 2⟩ (String.toList "226") none = .ok (r, [])
      ∧ r.status_code = 226 ∧ r.encoding = none ∧ r.raw.pos = 0
      ∧ (retr ⟨fun _ _ _ _ => .ok (), fun _ => .ok [1, 2], id⟩ (String.toList "pkg")
          ⟨⟨String.toList "host", none, none, none, String.toList "/pkg"⟩,
            String.toList "GET"⟩).1 = .ok (some r) :=
  (claim_C6_success_response_invariants ⟨fun _ _ _ _ => .ok (), fun _ => .ok [1, 2], id⟩
    (String.toList "pkg")
    ⟨⟨String.toList "host", none, none, none, String.toList "/pkg"⟩,
      String.toList "GET"⟩ [1, 2] rfl).1

/-- Counterexample to C7 as stated: the empty path does not begin with
'/', yet it is not forwarded unchanged — indexing `path[0]` raises an
uncaught IndexError instead. -/
theorem claim_C7_counterexample :
    stripPath ([] : List Char) = .error .indexError ∧
      stripPath ([] : List Char) ≠ .ok ([] : List Char) := by
  decide

/-- Claim C7 (amended): a nonempty path beginning with '/' has exactly
one leading separator stripped and a nonempty path not beginning with
'/' is passed through unchanged; an empty path instead raises an
uncaught IndexError from `send` before any connection is made. -/
theorem claim_C7_amended_path_strip (c : Char) (rest : List Char) :
    stripPath (c :: rest) = .ok (if c = '/' then rest else c :: rest)
    ∧ stripPath ([] : List Char) = .error .indexError
    ∧ (∀ (w : World) (req : Request), req.url.path = [] →
        send w req = (.error .indexError, Trace.empty)) := by
  refine ⟨rfl, rfl, ?_⟩
  intro w req hp
  simp only [send, hp, stripPath]

/-- Witness for C7 (amended) at a concrete empty-path request. -/
theorem claim_C7_amended_path_strip_witness :
    send ⟨fun _ _ _ _ => .ok (), fun _ => .ok [], id⟩
      ⟨⟨String.toList "host", none, none, none, []⟩, String.toList "GET"⟩ =
      (.error .indexError, Trace.empty) :=
  (claim_C7_amended_path_strip 'a' []).2.2 _ _ rfl

/-- Claim C8: a request whose method is not a key of the verb table
fails with a key-lookup error that propagates uncaught to the caller,
and a connection-establishment failure propagates uncaught from the
session layer. -/
theorem claim_C8_uncaught_lookup_and_conn_errors (w : World) (req : Request)
    (p : List Char) (hs : stripPath req.url.path = .ok p) :
    (req.method ∉ func_table.map Prod.fst →
      w.connect req.url.hostname (effectivePort req.url.port) req.url.username
        req.url.password = .ok () →
      (send w req).1 = .error (.keyError req.method))
    ∧ (w.connect req.url.hostname (effectivePort req.url.port) req.url.username
        req.url.password = .error () →
      (send w req).1 = .error .connError) := by
  constructor
  · intro hm hc
    rw [send_reduces hs hc, tableLookup_eq_none hm]
  · intro hc
    simp only [send, hs, hc]

/-- Witness for C8 at a concrete request with the unsupported method
PUT. -/
theorem claim_C8_uncaught_lookup_and_conn_errors_witness :
    (send ⟨fun _ _ _ _ => .ok (), fun _ => .ok [], id⟩
      ⟨⟨String.toList "host", none, none, none, String.toList "/pkg"⟩,
        String.toList "PUT"⟩).1 = .error (.keyError (String.toList "PUT")) :=
  (claim_C8_uncaught_lookup_and_conn_errors ⟨fun _ _ _ _ => .ok (), fun _ => .ok [], id⟩
    ⟨⟨String.toList "host", none, none, none, String.toList "/pkg"⟩,
      String.toList "PUT"⟩ (String.toList "pkg") rfl).1 (by decide) rfl

/-- Claim C9: the verb table maps exactly the keys LIST, RETR, STOR,
NLST and GET, every key is uppercase, GET and RETR map to the same
handler `retr`, and a URL carrying no port leads to a connection opened
on port 22. -/
theorem claim_C9_verb_table_and_default_port :
    func_table.map Prod.fst =
      [String.toList "LIST", String.toList "RETR", String.toList "STOR",
        String.toList "NLST", String.toList "GET"]
    ∧ (∀ k ∈ func_table.map Prod.fst, ∀ c ∈ k, c.isUpper = true)
    ∧ tableLookup (String.toList "GET") func_table = some Handler.retr
    ∧ tableLookup (String.toList "RETR") func_table = some Handler.retr
    ∧ effectivePort none = 22
    ∧ (∀ (w : World) (req : Request) (p : List Char),
        stripPath req.url.path = .ok p → req.url.port = none →
        (send w req).2.connectArgs =
          some (req.url.hostname, 22, req.url.username, req.url.password)) := by
  refine ⟨rfl, by decide, rfl, rfl, rfl, ?_⟩
  intro w req p hs hport
  cases hc : w.connect req.url.hostname (effectivePort req.url.port)
      req.url.username req.url.password with
  | error u =>
    simp only [send, hs, hc]
    rw [hport]
    rfl
  | ok u =>
    cases u
    rw [send_reduces hs hc]
    cases hl : tableLookup req.method func_table with
    | none => rw [hport]; rfl
    | some h => rw [hport]; rfl

/-- Witness for C9 at a concrete portless request. -/
theorem claim_C9_verb_table_and_default_port_witness :
    (send ⟨fun _ _ _ _ => .ok (), fun _ => .ok [], id⟩
      ⟨⟨String.toList "host", none, none, none, String.toList "/pkg"⟩,
        String.toList "GET"⟩).2.connectArgs =
      some (String.toList "host", 22, none, none) :=
  claim_C9_verb_table_and_default_port.2.2.2.2.2 _ _ (String.toList "pkg") rfl rfl

/-- Claim C10: when the method is missing from the verb table, the
connection has already been opened and stored in `self.conn` before the
lookup fails, and the key-lookup error leaves it open — the trace shows
the stored connection and zero close calls, so the session leaks. -/
theorem claim_C10_keyerror_leaks_connection (w : World) (req : Request)
    (p : List Char) (hs : stripPath req.url.path = .ok p)
    (hc : w.connect req.url.hostname (effectivePort req.url.port) req.url.username
      req.url.password = .ok ())
    (hm : req.method ∉ func_table.map Prod.fst) :
    (send w req).1 = .error (.keyError req.method)
    ∧ (send w req).2.connStored = true
    ∧ (send w req).2.closes = 0 := by
  rw [send_reduces hs hc, tableLookup_eq_none hm]
  exact ⟨rfl, rfl, rfl⟩

/-- Witness for C10 at a concrete request with the unsupported method
MKD. -/
theorem claim_C10_keyerror_leaks_connection_witness :
    (send ⟨fun _ _ _ _ => .ok (), fun _ => .ok [], id⟩
      ⟨⟨String.toList "host", none, none, none, String.toList "/pkg"⟩,
        String.toList "MKD"⟩).1 = .error (.keyError (String.toList "MKD"))
    ∧ (send ⟨fun _ _ _ _ => .ok (), fun _ => .ok [], id⟩
      ⟨⟨String.toList "host", none, none, none, String.toList "/pkg"⟩,
        String.toList "MKD"⟩).2.connStored = true
    ∧ (send ⟨fun _ _ _ _ => .ok (), fun _ => .ok [], id⟩
      ⟨⟨String.toList "host", none, none, none, String.toList "/pkg"⟩,
        String.toList "MKD"⟩).2.closes = 0 :=
  claim_C10_keyerror_leaks_connection _ _ (String.toList "pkg") rfl rfl (by decide)
